import Mathlib

/-!
Shallow embedding of the agentic support-workflow system
(`agentic/workflow.py`, `agentic/agents/*.py`, `agentic/tools/*.py`).

Conventions used throughout:
* Python strings are Lean `String`s; the Python library operations
  `str.strip` / `str.split()` / `str.lower` / `str.upper` are modelled by
  the executable functions `pyTrim` / `pySplit` / `pyLower` / `pyUpper`
  below, defined directly over the character list of the string.
* The language-model completion call `complete(system, user)` is an
  external capability; its outcome is the uninterpreted oracle value
  `LLMResult`: either an exception escaped the call, or it returned a
  dict with an `ok` flag and a `content` string.  Prompt text sent to the
  model does not constrain the oracle, so prompt construction is not
  reproduced.
* Python floats (`min_confidence`, scores) are idealised as rationals.
* `try`/`except` blocks become case analysis on oracle outcomes; a
  Python function that can raise is given an `ExcOr` result.
-/

namespace Agentic

/-- Python `str.lower()` (per character, as in CPython for ASCII). -/
def pyLower (s : String) : String := ⟨s.data.map Char.toLower⟩

/-- Python `str.upper()`. -/
def pyUpper (s : String) : String := ⟨s.data.map Char.toUpper⟩

/-- Python `str.strip()`: drop leading and trailing whitespace. -/
def pyTrim (s : String) : String :=
  ⟨((s.data.dropWhile Char.isWhitespace).reverse.dropWhile Char.isWhitespace).reverse⟩

/-- Split a character list on characters satisfying `p`, dropping empty
pieces — the semantics of Python `str.split()` (with `p` = whitespace)
and of `re.findall` over the complement class. -/
def splitDrop (p : Char → Bool) : List Char → List Char → List (List Char)
  | [], acc => if acc = [] then [] else [acc.reverse]
  | c :: cs, acc =>
    if p c then
      (if acc = [] then splitDrop p cs [] else acc.reverse :: splitDrop p cs [])
    else splitDrop p cs (c :: acc)

/-- Python `str.split()` with no argument: split on whitespace runs,
no empty tokens. -/
def pySplit (s : String) : List String :=
  (splitDrop Char.isWhitespace s.data []).map (fun l => ⟨l⟩)

/-- Outcome of the completion capability `complete(system, user)`:
either the call raised, or it returned `{"ok": b, "content"/"error": c}`.
`res true c` is a successful completion with text `c`; `res false c` is a
returned failure (`ok = False`) whose error text is `c`. -/
inductive LLMResult where
  | exc : LLMResult
  | res : Bool → String → LLMResult
deriving DecidableEq

/-! ### `agentic/agents/classifier.py` -/

/-- The closed label set of the classifier. -/
def classifierLabels : List String := ["login", "subscription", "reservation", "knowledge"]

/-- Source `classifier.classify`: take the first whitespace token of the
completion content, lowercase it, accept it only if it is in the closed
label set; every other path (returned failure, empty content — where
Python `[0]` raises `IndexError` into the `except` — non-matching token,
or an exception) yields `"unknown"`.  Returns the `intent` value of the
result dict. -/
def classify (llm : LLMResult) : String :=
  match llm with
  | .exc => "unknown"
  | .res false _ => "unknown"
  | .res true c =>
    match pySplit (pyTrim c) with
    | [] => "unknown"
    | t :: _ =>
      let label := pyLower t
      if label ∈ classifierLabels then label else "unknown"

/-- First whitespace token of the (stripped) completion content,
lowercased — the value the classifier tests against the label set. -/
def firstTokenLower (c : String) : Option String :=
  (pySplit (pyTrim c)).head?.map pyLower

/-! ### Routing (`workflow.py`, `LangChainRouter`) -/

/-- Source `LangChainRouter.route_by_intent`: the rule-based routing table.
`state.get("intent", "unknown")` defaults a missing intent to
`"unknown"`; `routing_map.get(intent, "escalate")` is rendered as the
equivalent chain of key tests. -/
def route_by_intent (intent : Option String) : String :=
  let i := intent.getD "unknown"
  if i = "unknown" then "escalate"
  else if i = "reservation" then "ops"
  else if i = "subscription" then "ops"
  else if i = "knowledge" then "resolve"
  else if i = "login" then "resolve"
  else "escalate"

/-- The three-way output space of both routing strategies. -/
def routeNames : List String := ["escalate", "ops", "resolve"]

/-- Source `LangChainRouter.intelligent_route`: ask the model for a route; if
the call succeeds and the trimmed, lowercased reply is one of the three
route names, use it; on any failure, exception, or invalid reply fall
back to `route_by_intent`. -/
def intelligent_route (llm : LLMResult) (intent : Option String) : String :=
  match llm with
  | .res true c =>
    let route := pyLower (pyTrim c)
    if route ∈ routeNames then route else route_by_intent intent
  | _ => route_by_intent intent

/-! ### `agentic/tools/kb_tool.py` -/

/-- A row of the `Knowledge` table. -/
structure KnowledgeRow where
  account_id : String
  article_id : String
  title : String
  content : String
deriving DecidableEq

/-- Python `re.findall(r"[a-zA-Z0-9]+", s.lower())`: maximal alphanumeric runs
of the lowercased text (`Char.isAlphanum` is exactly ASCII `[a-zA-Z0-9]`). -/
def findTokens (s : String) : List String :=
  (splitDrop (fun c => !c.isAlphanum) (pyLower s).data []).map (fun l => ⟨l⟩)

/-- Source `kb_tool._score`: token-overlap score.  `|set(text) ∩ set(query)| /
|set(query)|`, with 0 for empty text/query or an empty query token set.
(Division is written `Rat.divInt`, the exact quotient.) -/
def _score (text query : String) : ℚ :=
  if text = "" ∨ query = "" then 0
  else
    let qtokens := (findTokens query).dedup
    if qtokens = [] then 0
    else
      let tokens := (findTokens text).dedup
      let inter := (qtokens.filter (fun t => t ∈ tokens)).length
      Rat.divInt (inter : Int) (qtokens.length : Int)

/-- Round the fraction `a / b` (with `b > 0`) to the nearest integer,
ties to even: `f` is the floor, `r = a - f * b` the remainder, and the
comparison of `2 * r` against `b` decides the direction. -/
def roundHalfEven (a b : Int) : Int :=
  let f := Int.fdiv a b
  let r := a - f * b
  if 2 * r < b then f else if b < 2 * r then f + 1 else if f % 2 = 0 then f else f + 1

/-- Python `round(x, 3)` idealised over the rationals: round `1000 * x`
to the nearest integer (ties to even), divided back by 1000. -/
def pyRound3 (q : ℚ) : ℚ :=
  Rat.divInt (roundHalfEven (1000 * q.num) (q.den : Int)) 1000

/-- One scored search hit, as placed in `results`. -/
structure ScoredRow where
  article_id : String
  title : String
  snippet : String
  score : ℚ
deriving DecidableEq

/-- Python `(r.content[:200] + "...") if r.content and len(r.content) > 200 else r.content`. -/
def snippetOf (content : String) : String :=
  if 200 < content.length then content.take 200 ++ "..." else content

/-- Insert into a list sorted by descending score, after all entries of
greater-or-equal score.  Folding this left over the input reproduces a
stable descending sort (Python `list.sort(key=..., reverse=True)`). -/
def insertByScoreDesc (x : ScoredRow) : List ScoredRow → List ScoredRow
  | [] => [x]
  | y :: ys => if y.score < x.score then x :: y :: ys else y :: insertByScoreDesc x ys

/-- Stable descending sort by score. -/
def sortByScoreDesc (l : List ScoredRow) : List ScoredRow :=
  l.foldl (fun acc x => insertByScoreDesc x acc) []

/-- The `data` dict returned by `knowledge_search`. -/
structure SearchData where
  results : List ScoredRow
  best_score : ℚ
  meets_threshold : Bool
deriving DecidableEq

/-- The `ToolResult` returned by `knowledge_search` (its `ok` flag is
always `True` in the source; kept so `resolve` can test it). -/
structure SearchResult where
  ok : Bool
  data : SearchData
deriving DecidableEq

/-- Source `kb_tool.knowledge_search`: score every knowledge row of the
account, keep strictly positive scores (rounded to 3 places), sort
descending (stable), truncate to `top_k`; `best_score` is the top score
or `0.0`; `meets_threshold` is the inclusive comparison
`best >= min_confidence`. -/
def knowledge_search (rows : List KnowledgeRow) (account_id query : String)
    (top_k : Nat) (min_confidence : ℚ) : SearchResult :=
  let filtered := rows.filter (fun r => r.account_id == account_id)
  let scored := filtered.filterMap (fun r =>
    let score := max (_score r.title query) (_score r.content query)
    if 0 < score then
      some { article_id := r.article_id, title := r.title,
             snippet := snippetOf r.content, score := pyRound3 score }
    else none)
  let results := (sortByScoreDesc scored).take top_k
  let best := (results.head?.map ScoredRow.score).getD 0
  { ok := true,
    data := { results := results, best_score := best,
              meets_threshold := decide (min_confidence ≤ best) } }

/-! ### `agentic/agents/resolver.py` -/

/-- The result dict of `resolve`; absent keys are `none`. -/
structure ResolverResult where
  ok : Bool
  reason : Option String := none
  answer : Option String := none
  citations : Option (List ScoredRow) := none
  results : Option (List ScoredRow) := none
  best_score : Option ℚ := none
deriving DecidableEq

/-- Source `resolver.resolve`: search the knowledge base (top 3); on search
failure return `search_failed`; then ask the model for an answer.  A
returned model failure gives `llm_failed`, an exception `llm_exception`;
otherwise, if the threshold is not met OR the trimmed reply uppercases
to `"ESCALATE"`, fail with `low_confidence` (carrying the top score and
the result list); otherwise succeed with the answer as composed. -/
def resolve (rows : List KnowledgeRow) (account_id query : String)
    (min_confidence : ℚ) (llm : LLMResult) : ResolverResult :=
  let res := knowledge_search rows account_id query 3 min_confidence
  if res.ok = false then { ok := false, reason := some "search_failed" }
  else
    match llm with
    | .exc => { ok := false, reason := some "llm_exception" }
    | .res false _ => { ok := false, reason := some "llm_failed" }
    | .res true c =>
      let content := pyTrim c
      if res.data.meets_threshold = false ∨ pyUpper content = "ESCALATE" then
        { ok := false, reason := some "low_confidence",
          best_score := some res.data.best_score, results := some res.data.results }
      else
        { ok := true, answer := some content, citations := some res.data.results,
          best_score := some res.data.best_score }

/-! ### `agentic/agents/ops.py` -/

/-- A JSON value as produced by `json.loads` (Python `None`, bools,
numbers, strings, lists, dicts). -/
inductive PyJson where
  | jnull : PyJson
  | jbool : Bool → PyJson
  | jnum : Int → PyJson
  | jstr : String → PyJson
  | jarr : List PyJson → PyJson
  | jobj : List (String × PyJson) → PyJson

/-- Python `dict.get(key)` over a field list: `none` stands for the key
being absent (Python `None`). -/
def pyLookup (fields : List (String × PyJson)) (key : String) : Option PyJson :=
  (fields.find? (fun kv => kv.1 == key)).map (fun kv => kv.2)

/-- The keys of `TOOL_MAP` — the fixed operation registry. -/
def toolMapKeys : List String :=
  ["get_user_profile", "get_subscription_status", "list_reservations",
   "reserve_experience", "cancel_reservation"]

/-- Python `action not in TOOL_MAP` (negated), defined on the hashable
action values: only a string that is a registry key is a member; `None`,
a bool or a number is a hashable non-member.  For an unhashable value
(list or dict) the membership test itself raises `TypeError` — that
path is `actionUnhashable` below, not this predicate. -/
def actionInRegistry (a : Option PyJson) : Bool :=
  match a with
  | some (.jstr s) => toolMapKeys.contains s
  | _ => false

/-- Holds on the JSON values that are unhashable in Python (lists and
dicts): testing them with `in` against a dict raises `TypeError`. -/
def actionUnhashable (a : Option PyJson) : Bool :=
  match a with
  | some (.jarr _) => true
  | some (.jobj _) => true
  | _ => false

/-- The registry key named by the action (defined only when
`actionInRegistry` holds). -/
def actionName (a : Option PyJson) : String :=
  match a with
  | some (.jstr s) => s
  | _ => ""

/-- The error dict of an `operate` failure; `message` carries the
offending Python value (for `BAD_ACTION` the action value itself). -/
structure OpsError where
  code : String
  message : PyJson

/-- The result dict of `operate` (also the `ToolResult.__dict__` a tool
returns, verbatim). -/
structure OpsResult where
  ok : Bool
  error : Option OpsError := none
  data : Option PyJson := none

/-- Outcome of invoking one registry executor: it raised (a `KeyError`
on a missing argument, a database error, ...) or returned a result dict. -/
inductive ToolOutcome where
  | raises : ToolOutcome
  | result : OpsResult → ToolOutcome

/-- The context keys whitelisted into the merged argument dict. -/
def contextKeys : List String :=
  ["user_id", "experience_id", "reservation_id", "external_user_id"]

/-- Python `{**{k: v for k, v in context.items() if k in {...}}, **args}`:
whitelisted context fields, with model-supplied args overriding on key
collision. -/
def mergeArgs (context args : List (String × PyJson)) : List (String × PyJson) :=
  (context.filter (fun kv => contextKeys.contains kv.1 && (pyLookup args kv.1).isNone)) ++ args

/-- Source `ops.operate`.  Oracles: `llm` for the completion call, `parsed` for
`json.loads(llm content)` (`none` = the parse raised), `tools` for the
registry executors.  Control flow of the source:
an exception of the completion call or of the parse, a non-dict parse
result (`.get` raises `AttributeError`), a non-dict `args`
(`{**args}` raises) and a raising executor are all caught by the
enclosing `try` as `LLM_OR_TOOL_ERROR`; a returned completion failure is
`LLM_ERROR`; an unhashable action value (list/dict) makes the
`action not in TOOL_MAP` test itself raise `TypeError`, caught as
`LLM_OR_TOOL_ERROR`; a hashable action value that is not a registry key
is `BAD_ACTION` carrying that value (`None` when the key is absent);
otherwise the executor's own result dict is returned verbatim. -/
def operate (llm : LLMResult) (parsed : Option PyJson)
    (context : List (String × PyJson))
    (tools : String → List (String × PyJson) → ToolOutcome) : OpsResult :=
  match llm with
  | .exc =>
    { ok := false, error := some { code := "LLM_OR_TOOL_ERROR", message := .jstr "completion call raised" } }
  | .res false e =>
    { ok := false, error := some { code := "LLM_ERROR", message := .jstr e } }
  | .res true _ =>
    match parsed with
    | none =>
      { ok := false, error := some { code := "LLM_OR_TOOL_ERROR", message := .jstr "json decode error" } }
    | some (PyJson.jobj fields) =>
      let action := pyLookup fields "action"
      if actionUnhashable action then
        { ok := false, error := some { code := "LLM_OR_TOOL_ERROR", message := .jstr "unhashable action value" } }
      else if actionInRegistry action then
        match (pyLookup fields "args").getD (PyJson.jobj []) with
        | PyJson.jobj argFields =>
          match tools (actionName action) (mergeArgs context argFields) with
          | .raises =>
            { ok := false, error := some { code := "LLM_OR_TOOL_ERROR", message := .jstr "tool raised" } }
          | .result r => r
        | _ =>
          { ok := false, error := some { code := "LLM_OR_TOOL_ERROR", message := .jstr "args not a mapping" } }
      else
        { ok := false, error := some { code := "BAD_ACTION", message := action.getD PyJson.jnull } }
    | some _ =>
      { ok := false, error := some { code := "LLM_OR_TOOL_ERROR", message := .jstr "reply is not an object" } }

/-- Holds exactly on JSON objects (dicts). -/
def isObj : PyJson → Bool
  | .jobj _ => true
  | _ => false

/-! ### `agentic/agents/escalation.py` -/

/-- Outcome of a Python call that can raise: it raised, or it returned
a value. -/
inductive ExcOr (α : Type) where
  | raised : ExcOr α
  | value : α → ExcOr α
deriving DecidableEq

/-- The `ToolResult` of `udahub_tools.escalate_ticket` (as a dict):
`ok = True` with `status = "escalated"`, or `NOT_FOUND` when the ticket
metadata record does not exist. -/
structure UdaResult where
  ok : Bool
  status : Option String := none
  errCode : Option String := none
deriving DecidableEq

/-- The `ToolResult` of `vocareum.escalate_to_vocareum` (as a dict); the
HTTP client catches every exception internally, so this call returns a
result in all cases. -/
structure VocResult where
  ok : Bool
  errCode : Option String := none
deriving DecidableEq

/-- Environment of one `escalate` call: the completion oracle and the
outcomes of the three downstream operations.
`append_ticket_message` either raises (its only failure mode — the
source builds and commits a row with no guard) or returns its always-ok
result; `escalate_ticket` may raise (database error) or return a result
dict; `escalate_to_vocareum` never raises. -/
structure EscEnv where
  llm : LLMResult
  appendOutcome : ExcOr Unit
  ticketOutcome : ExcOr UdaResult
  vocOutcome : VocResult
deriving DecidableEq

/-- The aggregate dict returned by `escalate`. -/
structure EscalationResult where
  udahub : UdaResult
  vocareum : VocResult
  reason : String
deriving DecidableEq

/-- The escalation reason: the trimmed completion content when the call
returned ok, the fixed fallback sentence on a returned failure, and the
guardrail sentence when the call raised (the `except` branch). -/
def escReason (llm : LLMResult) : String :=
  match llm with
  | .exc => "Escalation required due to low confidence or policy guardrail."
  | .res true c => pyTrim c
  | .res false _ => "Escalation required."

/-- Source `escalation.escalate`.  The reason is composed first (that step
never raises out); then `append_ticket_message`, `escalate_ticket` and
`escalate_to_vocareum` run in sequence with no exception guard, so a
raise of an earlier call prevents every later call.  The second
component of the result is the list of downstream operations that were
actually attempted. -/
def escalate (env : EscEnv) (ticket_id user_message : String)
    (last_confidence : Option ℚ) : ExcOr EscalationResult × List String :=
  let _ := ticket_id
  let _ := user_message
  let _ := last_confidence
  let reason := escReason env.llm
  match env.appendOutcome with
  | .raised => (.raised, ["append_ticket_message"])
  | .value _ =>
    match env.ticketOutcome with
    | .raised => (.raised, ["append_ticket_message", "escalate_ticket"])
    | .value r =>
      (.value { udahub := r, vocareum := env.vocOutcome, reason := reason },
       ["append_ticket_message", "escalate_ticket", "escalate_to_vocareum"])

/-! ### `agentic/workflow.py` — state, nodes, graph -/

/-- An entry of `state["messages"]`, by the shape `_extract_last_content`
discriminates on: a `HumanMessage`, an `AIMessage` (any object with a
`content` attribute), a plain dict, another object carrying a `content`
attribute, a bare string, or something with no extractable content. -/
inductive Msg where
  | human : String → Msg
  | ai : String → Msg
  | dict : List (String × String) → Msg
  | objWithContent : String → Msg
  | plain : String → Msg
  | noContent : Msg
deriving DecidableEq

/-- The loop body of `_extract_last_content`, already running over the
reversed list: a `HumanMessage` matches first; then a dict with a
`"content"` key; then any object with a `content` attribute (which
includes `AIMessage`); then a bare string; anything else is skipped. -/
def extractLoop : List Msg → Option String
  | [] => none
  | m :: rest =>
    match m with
    | .human c => some c
    | .dict fields =>
      match fields.lookup "content" with
      | some c => some c
      | none => extractLoop rest
    | .ai c => some c
    | .objWithContent c => some c
    | .plain s => some s
    | .noContent => extractLoop rest

/-- Source `workflow._extract_last_content`: scan the message list from the
end and return the first extractable content. -/
def _extract_last_content (messages : List Msg) : Option String :=
  extractLoop messages.reverse

/-- The `State` TypedDict threaded through the graph; keys that a run
may not have set are `Option`s (`none` = key absent).  The source's
`escalation` key holds the aggregate escalation result. -/
structure WState where
  messages : List Msg := []
  input : Option String := none
  intent : Option String := none
  account_id : Option String := none
  user_id : Option String := none
  min_confidence : Option ℚ := none
  ticket_id : Option String := none
  resolver_result : Option ResolverResult := none
  ops_result : Option OpsResult := none
  escalation : Option EscalationResult := none

/-- Source `workflow._append_ai_message`: append an `AIMessage` to the
conversation. -/
def _append_ai_message (s : WState) (text : String) : WState :=
  { s with messages := s.messages ++ [Msg.ai text] }

/-- Source `workflow._node_prepare`: if `input` is absent or falsy (the empty
string), derive it from the conversation — last extractable content, or
`""` when the list is empty or nothing matches; then `setdefault` the
identifiers and the threshold.  Python floats `0.6` idealised as `3/5`. -/
def _node_prepare (s : WState) : WState :=
  let s1 :=
    if s.input = none ∨ s.input = some "" then
      if s.messages = [] then { s with input := some "" }
      else { s with input := some ((_extract_last_content s.messages).getD "") }
    else s
  { s1 with
    account_id := some (s1.account_id.getD "cultpass"),
    user_id := some (s1.user_id.getD "a4ab87"),
    min_confidence := some (s1.min_confidence.getD (Rat.divInt 3 5)),
    ticket_id := some (s1.ticket_id.getD "unknown") }

/-- Source `workflow._node_classify`: re-derive `input` if still absent or
empty, then set `intent` from the classifier (which never raises, so
the node's `except` branch is dead). -/
def _node_classify (llm : LLMResult) (s : WState) : WState :=
  let s1 :=
    if s.input = none ∨ s.input = some "" then
      match _extract_last_content s.messages with
      | some c => { s with input := some c }
      | none => { s with input := some "" }
    else s
  { s1 with intent := some (classify llm) }

/-- The per-run environment: the completion-oracle outcomes of each
node, the parsed-reply and executor oracles of `operate`, the knowledge
rows backing the search, and the escalation environment. -/
structure Env where
  classifyLLM : LLMResult
  routeLLM : LLMResult
  resolveLLM : LLMResult
  opsLLM : LLMResult
  opsParsed : Option PyJson
  tools : String → List (String × PyJson) → ToolOutcome
  kbRows : List KnowledgeRow
  escEnv : EscEnv

/-- Source `workflow._node_resolve`: run the resolver against the state's
account, input and threshold (`state.get("min_confidence", 0.55)`),
store the result, and append the answer or the fixed escalation notice.
After `prepare`, `account_id` and `input` are always present; absent
values default to `""` here (where the source would raise `KeyError`). -/
def _node_resolve (env : Env) (s : WState) : WState :=
  let r := resolve env.kbRows (s.account_id.getD "") (s.input.getD "")
    (s.min_confidence.getD (Rat.divInt 11 20)) env.resolveLLM
  let s1 := { s with resolver_result := some r }
  if r.ok then _append_ai_message s1 (r.answer.getD "")
  else _append_ai_message s1 "I\x27ll escalate this for a specialist to review."

/-- Helper `optJson`: a `state.get(...)` value placed into the ops context
dict — the string, or Python `None`. -/
def optJson (o : Option String) : PyJson :=
  match o with
  | some s => .jstr s
  | none => .jnull

/-- The context dict `_node_ops` assembles.  The `State` TypedDict has
no `experience_id`/`reservation_id` keys, so those `state.get` calls
yield `None`. -/
def opsContext (s : WState) : List (String × PyJson) :=
  [("user_id", optJson s.user_id),
   ("external_user_id", optJson s.user_id),
   ("experience_id", PyJson.jnull),
   ("reservation_id", PyJson.jnull),
   ("account_id", optJson s.account_id)]

/-- Source `workflow._node_ops`: dispatch the operation, store the result, and
append a result-summary message (its interpolated payload is not
reproduced). -/
def _node_ops (env : Env) (s : WState) : WState :=
  let r := operate env.opsLLM env.opsParsed (opsContext s) env.tools
  let s1 := { s with ops_result := some r }
  if r.ok then _append_ai_message s1 "Done: "
  else _append_ai_message s1 "Operation failed: "

/-- Source `workflow._node_escalate`: run the escalation handler under a
`try`; when it returns, store the aggregate; when it raises, leave
`escalation` unset; in both cases append the fixed notice. -/
def _node_escalate (env : Env) (s : WState) : WState :=
  let conf := (s.resolver_result.map ResolverResult.best_score).getD none
  match (escalate env.escEnv (s.ticket_id.getD "unknown") (s.input.getD "") conf).1 with
  | .value e => _append_ai_message { s with escalation := some e } "I\x27ve escalated this to human support."
  | .raised => _append_ai_message s "I\x27ve escalated this to human support."

/-- Source `LangChainRouter.route_by_confidence`: escalate unless the stored
resolver result is ok (`state.get("resolver_result", {})` — a missing
result reads as a falsy `ok`). -/
def route_by_confidence (s : WState) : String :=
  match s.resolver_result with
  | some r => if r.ok then "end" else "escalate"
  | none => "escalate"

/-- Source `workflow.build_graph`, executed: `prepare → classify`, then the
conditional edge driven by `_should_route_to_ops = intelligent_route`
into `ops` (terminal), `resolve` (followed by the conditional edge
driven by `_should_escalate = route_by_confidence` into `escalate` or
`END`), or `escalate` (terminal).  The second component is the list of
nodes executed, in order. -/
def run_workflow (env : Env) (init : WState) : WState × List String :=
  let s1 := _node_prepare init
  let s2 := _node_classify env.classifyLLM s1
  let route := intelligent_route env.routeLLM s2.intent
  if route = "ops" then
    (_node_ops env s2, ["prepare", "classify", "ops"])
  else if route = "resolve" then
    let s3 := _node_resolve env s2
    if route_by_confidence s3 = "escalate" then
      (_node_escalate env s3, ["prepare", "classify", "resolve", "escalate"])
    else
      (s3, ["prepare", "classify", "resolve"])
  else
    (_node_escalate env s2, ["prepare", "classify", "escalate"])

/-! ### `agentic/tools/cultpass_tools.py` -/

/-- A row of the `User` table. -/
structure CUser where
  user_id : String
  is_blocked : Bool
deriving DecidableEq

/-- A row of the `Subscription` table. -/
structure CSubscription where
  user_id : String
  status : String
  monthly_quota : Int
deriving DecidableEq

/-- A row of the `Reservation` table (`created_at` as an abstract
timestamp). -/
structure CReservation where
  reservation_id : String
  user_id : String
  experience_id : String
  status : String
  created_at : Int
deriving DecidableEq

/-- A row of the `Experience` table. -/
structure CExperience where
  experience_id : String
  slots_available : Int
deriving DecidableEq

/-- The cultpass database. -/
structure CStore where
  users : List CUser := []
  subscriptions : List CSubscription := []
  reservations : List CReservation := []
  experiences : List CExperience := []
deriving DecidableEq

/-- The `data` dict of `get_subscription_status`. -/
structure SubStatusData where
  status : String
  monthly_quota : Int
  used_this_month : Int
  remaining_quota : Int
deriving DecidableEq

/-- Source `cultpass_tools.get_subscription_status` (read-only): `none` models
the `NO_SUB` failure; otherwise count this month's `reserved`-status
reservations and compute `remaining = max(0, quota - used)`.
`monthStart` abstracts the computed start of the current month. -/
def get_subscription_status (store : CStore) (user_id : String)
    (monthStart : Int) : Option SubStatusData :=
  match store.subscriptions.find? (fun s => s.user_id == user_id) with
  | none => none
  | some sub =>
    let used := (store.reservations.filter (fun r =>
      r.user_id == user_id && decide (monthStart ≤ r.created_at)
        && r.status == "reserved")).length
    some { status := sub.status, monthly_quota := sub.monthly_quota,
           used_this_month := (used : Int),
           remaining_quota := max 0 (sub.monthly_quota - (used : Int)) }

/-- The `ToolResult` of `reserve_experience` as a record. -/
structure ReserveResult where
  ok : Bool
  errCode : Option String := none
  reservation_id : Option String := none
deriving DecidableEq

/-- Source `cultpass_tools.reserve_experience`: the guard chain of the source —
user missing (`USER_NOT_FOUND`), blocked (`BLOCKED`), subscription
missing or not active (`INACTIVE_SUB`), failing status lookup or no
remaining quota (`NO_QUOTA`), experience missing (`EXP_NOT_FOUND`), no
slots (`NO_SLOTS`) — then, only on the success path, add the new
`reserved` reservation and decrement the experience's slot count,
committed together.  `newResId` abstracts the generated uuid prefix,
`now` the creation timestamp; experience ids are primary keys. -/
def reserve_experience (store : CStore) (user_id experience_id : String)
    (monthStart now : Int) (newResId : String) : ReserveResult × CStore :=
  match store.users.find? (fun u => u.user_id == user_id) with
  | none => ({ ok := false, errCode := some "USER_NOT_FOUND" }, store)
  | some user =>
    if user.is_blocked then ({ ok := false, errCode := some "BLOCKED" }, store)
    else
      match store.subscriptions.find? (fun s => s.user_id == user_id) with
      | none => ({ ok := false, errCode := some "INACTIVE_SUB" }, store)
      | some sub =>
        if sub.status ≠ "active" then ({ ok := false, errCode := some "INACTIVE_SUB" }, store)
        else
          match get_subscription_status store user_id monthStart with
          | none => ({ ok := false, errCode := some "NO_QUOTA" }, store)
          | some st =>
            if st.remaining_quota ≤ 0 then ({ ok := false, errCode := some "NO_QUOTA" }, store)
            else
              match store.experiences.find? (fun e => e.experience_id == experience_id) with
              | none => ({ ok := false, errCode := some "EXP_NOT_FOUND" }, store)
              | some exp =>
                if exp.slots_available ≤ 0 then
                  ({ ok := false, errCode := some "NO_SLOTS" }, store)
                else
                  let newRes : CReservation :=
                    { reservation_id := newResId, user_id := user_id,
                      experience_id := experience_id, status := "reserved",
                      created_at := now }
                  ({ ok := true, reservation_id := some newResId },
                   { store with
                     reservations := store.reservations ++ [newRes],
                     experiences := store.experiences.map (fun e =>
                       if e.experience_id == experience_id then
                         { e with slots_available := e.slots_available - 1 }
                       else e) })

/-! ### Concrete environments used to evaluate the definitions -/

/-- Executor oracle in which every registry tool raises. -/
def toolsRaise : String → List (String × PyJson) → ToolOutcome :=
  fun _ _ => ToolOutcome.raises

/-- An escalation environment in which no downstream call raises. -/
def escEnvOk : EscEnv :=
  { llm := .exc, appendOutcome := .value (),
    ticketOutcome := .value { ok := true, status := some "escalated" },
    vocOutcome := { ok := true } }

/-- An escalation environment in which `append_ticket_message` raises. -/
def escEnvAppendRaises : EscEnv :=
  { llm := .res true "reason", appendOutcome := .raised,
    ticketOutcome := .value { ok := true, status := some "escalated" },
    vocOutcome := { ok := true } }

/-- An escalation environment in which the ticket-status update returns
a result-level failure. -/
def escEnvTicketFails : EscEnv :=
  { llm := .res false "err", appendOutcome := .value (),
    ticketOutcome := .value { ok := false, errCode := some "NOT_FOUND" },
    vocOutcome := { ok := true } }

/-- A knowledge row whose title exactly matches the query `"hello"`. -/
def helloRow : KnowledgeRow :=
  { account_id := "cultpass", article_id := "a1", title := "hello",
    content := "hello world" }

/-- A run environment in which the input classifies as `knowledge`, the
routing model raises (rule-based fallback), and the resolver fails on an
empty knowledge base; escalation completes. -/
def envResolveFail : Env :=
  { classifyLLM := .res true "knowledge", routeLLM := .exc,
    resolveLLM := .res true "answer text", opsLLM := .exc,
    opsParsed := none, tools := toolsRaise, kbRows := [], escEnv := escEnvOk }

/-- The resolver result produced inside `run_workflow envResolveFail {}`. -/
def resolveFailRes : ResolverResult :=
  resolve envResolveFail.kbRows "cultpass" "" (Rat.divInt 3 5) envResolveFail.resolveLLM

/-- A run environment in which classification fails (`unknown` intent)
and routing falls back to the rule-based table, going straight to
escalation. -/
def envUnknown : Env :=
  { classifyLLM := .exc, routeLLM := .exc, resolveLLM := .exc,
    opsLLM := .exc, opsParsed := none, tools := toolsRaise,
    kbRows := [], escEnv := escEnvOk }

/-- A conversation ending in an AI message. -/
def msgsHumanThenAi : List Msg := [Msg.human "hello", Msg.ai "reply"]

/-! ## Helper lemmas: frame conditions of the workflow nodes -/

theorem append_ai_resolver (s : WState) (t : String) :
    (_append_ai_message s t).resolver_result = s.resolver_result := rfl

theorem append_ai_ops (s : WState) (t : String) :
    (_append_ai_message s t).ops_result = s.ops_result := rfl

theorem append_ai_escalation (s : WState) (t : String) :
    (_append_ai_message s t).escalation = s.escalation := rfl

theorem prepare_keeps_resolver (s : WState) :
    (_node_prepare s).resolver_result = s.resolver_result := by
  simp only [_node_prepare]; split_ifs <;> rfl

theorem prepare_keeps_ops (s : WState) :
    (_node_prepare s).ops_result = s.ops_result := by
  simp only [_node_prepare]; split_ifs <;> rfl

theorem prepare_keeps_escalation (s : WState) :
    (_node_prepare s).escalation = s.escalation := by
  simp only [_node_prepare]; split_ifs <;> rfl

theorem classify_keeps_resolver (llm : LLMResult) (s : WState) :
    (_node_classify llm s).resolver_result = s.resolver_result := by
  simp only [_node_classify]; split_ifs
  · split <;> rfl
  · rfl

theorem classify_keeps_ops (llm : LLMResult) (s : WState) :
    (_node_classify llm s).ops_result = s.ops_result := by
  simp only [_node_classify]; split_ifs
  · split <;> rfl
  · rfl

theorem classify_keeps_escalation (llm : LLMResult) (s : WState) :
    (_node_classify llm s).escalation = s.escalation := by
  simp only [_node_classify]; split_ifs
  · split <;> rfl
  · rfl

theorem node_resolve_sets_resolver (env : Env) (s : WState) :
    (_node_resolve env s).resolver_result =
      some (resolve env.kbRows (s.account_id.getD "") (s.input.getD "")
        (s.min_confidence.getD (Rat.divInt 11 20)) env.resolveLLM) := by
  simp only [_node_resolve]; split_ifs <;> rfl

theorem node_resolve_keeps_ops (env : Env) (s : WState) :
    (_node_resolve env s).ops_result = s.ops_result := by
  simp only [_node_resolve]; split_ifs <;> rfl

theorem node_resolve_keeps_escalation (env : Env) (s : WState) :
    (_node_resolve env s).escalation = s.escalation := by
  simp only [_node_resolve]; split_ifs <;> rfl

theorem node_ops_keeps_resolver (env : Env) (s : WState) :
    (_node_ops env s).resolver_result = s.resolver_result := by
  simp only [_node_ops]; split_ifs <;> rfl

theorem node_ops_keeps_escalation (env : Env) (s : WState) :
    (_node_ops env s).escalation = s.escalation := by
  simp only [_node_ops]; split_ifs <;> rfl

theorem node_escalate_keeps_resolver (env : Env) (s : WState) :
    (_node_escalate env s).resolver_result = s.resolver_result := by
  simp only [_node_escalate]; split <;> rfl

theorem node_escalate_keeps_ops (env : Env) (s : WState) :
    (_node_escalate env s).ops_result = s.ops_result := by
  simp only [_node_escalate]; split <;> rfl

theorem escalate_returns_value (env : EscEnv) (t m : String) (conf : Option ℚ)
    (ha : env.appendOutcome ≠ ExcOr.raised) (ht : env.ticketOutcome ≠ ExcOr.raised) :
    ∃ e, (escalate env t m conf).1 = ExcOr.value e := by
  cases hao : env.appendOutcome with
  | raised => exact absurd hao ha
  | value a =>
    cases hto : env.ticketOutcome with
    | raised => exact absurd hto ht
    | value u =>
      exact ⟨{ udahub := u, vocareum := env.vocOutcome, reason := escReason env.llm },
        by simp only [escalate, hao, hto]⟩

theorem node_escalate_populates (env : Env) (s : WState)
    (ha : env.escEnv.appendOutcome ≠ ExcOr.raised)
    (ht : env.escEnv.ticketOutcome ≠ ExcOr.raised) :
    (_node_escalate env s).escalation.isSome = true := by
  obtain ⟨e, he⟩ := escalate_returns_value env.escEnv (s.ticket_id.getD "unknown")
    (s.input.getD "")
    ((s.resolver_result.map ResolverResult.best_score).getD none) ha ht
  simp only [_node_escalate, he]
  rfl

theorem route_by_intent_mem (intent : Option String) :
    route_by_intent intent ∈ routeNames := by
  simp only [route_by_intent]
  split_ifs <;> decide

/-! ## Claim theorems -/

/-- C1: the rule-based router maps `unknown → escalate`,
`reservation`/`subscription → ops`, `knowledge`/`login → resolve`, and
every other intent value to `escalate`; both routing strategies honour
the same three-way terminal routing table: each always returns a route
in `{escalate, ops, resolve}` (the table wired to the terminal nodes),
and the LLM-driven strategy falls back to the rule-based table on a
raised call, a returned failure, or an invalid reply. -/
theorem routing_honors_terminal_table :
    (route_by_intent (some "unknown") = "escalate" ∧
     route_by_intent (some "reservation") = "ops" ∧
     route_by_intent (some "subscription") = "ops" ∧
     route_by_intent (some "knowledge") = "resolve" ∧
     route_by_intent (some "login") = "resolve" ∧
     (∀ i : String,
        i ∉ (["unknown", "reservation", "subscription", "knowledge", "login"] : List String) →
        route_by_intent (some i) = "escalate")) ∧
    (∀ (llm : LLMResult) (intent : Option String),
        intelligent_route llm intent ∈ routeNames ∧ route_by_intent intent ∈ routeNames) ∧
    (∀ (intent : Option String) (c : String),
        intelligent_route LLMResult.exc intent = route_by_intent intent ∧
        intelligent_route (LLMResult.res false c) intent = route_by_intent intent ∧
        (pyLower (pyTrim c) ∉ routeNames →
          intelligent_route (LLMResult.res true c) intent = route_by_intent intent)) := by
  refine ⟨⟨by decide, by decide, by decide, by decide, by decide, ?_⟩, ?_, ?_⟩
  · intro i hi
    simp only [List.mem_cons, List.not_mem_nil, or_false, not_or] at hi
    obtain ⟨h1, h2, h3, h4, h5⟩ := hi
    simp only [route_by_intent, Option.getD]
    rw [if_neg h1, if_neg h2, if_neg h3, if_neg h4, if_neg h5]
  · intro llm intent
    refine ⟨?_, route_by_intent_mem intent⟩
    cases llm with
    | exc => exact route_by_intent_mem intent
    | res ok c =>
      cases ok with
      | false => exact route_by_intent_mem intent
      | true =>
        simp only [intelligent_route]
        split_ifs with h
        · exact h
        · exact route_by_intent_mem intent
  · intro intent c
    refine ⟨rfl, rfl, ?_⟩
    intro h
    simp only [intelligent_route]
    rw [if_neg h]

/-- Witness for C1: an invalid model reply falls back to the rule-based
table, which sends `login` to `resolve`. -/
theorem routing_honors_terminal_table_witness :
    intelligent_route (LLMResult.res true "banana") (some "login") = "resolve" := by
  have h := (routing_honors_terminal_table.2.2 (some "login") "banana").2.2 (by decide)
  rw [h]; decide

/-- C2: for every completion outcome, `classify` returns a label in the
closed set `{login, subscription, reservation, knowledge, unknown}`; a
raised call, a returned failure, and a first token outside the label set
(or no token at all) each fold into `"unknown"` — modelling that the
function never raises. -/
theorem classify_cons (c t : String) (ts : List String)
    (hs : pySplit (pyTrim c) = t :: ts) :
    classify (LLMResult.res true c) =
      if pyLower t ∈ classifierLabels then pyLower t else "unknown" := by
  simp only [classify, hs]

theorem classify_total_and_closed :
    (∀ llm : LLMResult,
       classify llm ∈
         (["login", "subscription", "reservation", "knowledge", "unknown"] : List String)) ∧
    classify LLMResult.exc = "unknown" ∧
    (∀ c : String, classify (LLMResult.res false c) = "unknown") ∧
    (∀ c : String,
       (∀ t, firstTokenLower c = some t → t ∉ classifierLabels) →
       classify (LLMResult.res true c) = "unknown") := by
  refine ⟨?_, rfl, ?_, ?_⟩
  · intro llm
    cases llm with
    | exc => decide
    | res ok c =>
      cases ok with
      | false =>
        show ("unknown" : String) ∈ _
        decide
      | true =>
        cases hs : pySplit (pyTrim c) with
        | nil => simp only [classify, hs]; decide
        | cons t ts =>
          rw [classify_cons c t ts hs]
          split_ifs with h
          · simp only [classifierLabels, List.mem_cons, List.not_mem_nil, or_false] at h
            rcases h with h | h | h | h <;> rw [h] <;> decide
          · decide
  · intro c
    rfl
  · intro c h
    cases hs : pySplit (pyTrim c) with
    | nil => simp only [classify, hs]
    | cons t ts =>
      have hf : firstTokenLower c = some (pyLower t) := by
        simp [firstTokenLower, hs]
      have hnot := h (pyLower t) hf
      rw [classify_cons c t ts hs, if_neg hnot]

/-- Witness for C2: a reply whose first token is not a label classifies
as `unknown`. -/
theorem classify_total_and_closed_witness :
    classify (LLMResult.res true "hola mundo") = "unknown" := by
  apply classify_total_and_closed.2.2.2
  intro t ht
  have he : firstTokenLower "hola mundo" = some "hola" := by decide
  rw [he] at ht
  injection ht with h
  rw [← h]; decide

/-- Helper: `knowledge_search` always returns `ok = True`. -/
theorem knowledge_search_ok (rows : List KnowledgeRow) (a q : String) (k : Nat) (m : ℚ) :
    (knowledge_search rows a q k m).ok = true := rfl

/-- Helper: `meets_threshold` is the inclusive comparison of
`min_confidence` against `best_score`. -/
theorem knowledge_search_meets (rows : List KnowledgeRow) (a q : String) (k : Nat) (m : ℚ) :
    (knowledge_search rows a q k m).data.meets_threshold =
      decide (m ≤ (knowledge_search rows a q k m).data.best_score) := rfl

/-- C3: with a successful model reply, if the top search score is
strictly below `min_confidence` then `resolve` fails with reason
`low_confidence` whatever the reply text was; and a top score exactly
equal to `min_confidence` meets the inclusive `>=` threshold, so absent
the escalation token the result is a success. -/
theorem resolve_threshold_inclusive :
    ∀ (rows : List KnowledgeRow) (account query : String) (minConf : ℚ) (c : String),
      ((knowledge_search rows account query 3 minConf).data.best_score < minConf →
        resolve rows account query minConf (LLMResult.res true c) =
          { ok := false, reason := some "low_confidence",
            best_score := some (knowledge_search rows account query 3 minConf).data.best_score,
            results := some (knowledge_search rows account query 3 minConf).data.results }) ∧
      ((knowledge_search rows account query 3 minConf).data.best_score = minConf →
        pyUpper (pyTrim c) ≠ "ESCALATE" →
        (resolve rows account query minConf (LLMResult.res true c)).ok = true) := by
  intro rows account query minConf c
  constructor
  · intro hlt
    have hm : (knowledge_search rows account query 3 minConf).data.meets_threshold = false := by
      rw [knowledge_search_meets]
      exact decide_eq_false (not_le.mpr hlt)
    simp only [resolve, knowledge_search_ok, hm]
    norm_num
  · intro heq hne
    have hm : (knowledge_search rows account query 3 minConf).data.meets_threshold = true := by
      rw [knowledge_search_meets]
      exact decide_eq_true (le_of_eq heq.symm)
    simp only [resolve, knowledge_search_ok, hm]
    simp [hne]

/-- Witness for C3: on an empty knowledge base the top score 0 is below
the threshold 1/2 and `resolve` fails; on an exact title match the top
score 1 equals the threshold 1 and `resolve` succeeds. -/
theorem resolve_threshold_inclusive_witness :
    (resolve [] "cultpass" "q" (Rat.divInt 1 2) (LLMResult.res true "hi")).ok = false ∧
    (resolve [helloRow] "cultpass" "hello" 1 (LLMResult.res true "the answer")).ok = true := by
  constructor
  · have h := (resolve_threshold_inclusive [] "cultpass" "q" (Rat.divInt 1 2) "hi").1 (by decide)
    rw [h]
  · exact (resolve_threshold_inclusive [helloRow] "cultpass" "hello" 1 "the answer").2
      (by decide) (by decide)

/-- Helper: `reserve_experience` either leaves the store unchanged or
succeeds. -/
theorem reserve_experience_cases (store : CStore) (u e : String) (ms now : Int) (rid : String) :
    (reserve_experience store u e ms now rid).2 = store ∨
    (reserve_experience store u e ms now rid).1.ok = true := by
  unfold reserve_experience
  repeat' split
  all_goals simp

/-- C10: every failure of `reserve_experience` (user missing, blocked,
inactive subscription, quota exhausted, experience missing, no slots)
leaves the store unchanged — no reservation row is added and no slot
count is decremented; writes happen only on the success path. -/
theorem reserve_failure_preserves_store :
    ∀ (store : CStore) (u e : String) (ms now : Int) (rid : String),
      (reserve_experience store u e ms now rid).1.ok = false →
      (reserve_experience store u e ms now rid).2 = store := by
  intro store u e ms now rid h
  rcases reserve_experience_cases store u e ms now rid with hc | hc
  · exact hc
  · rw [hc] at h; cases h

/-- Witness for C10: reserving against the empty store fails
(`USER_NOT_FOUND`) and leaves it unchanged. -/
theorem reserve_failure_preserves_store_witness :
    (reserve_experience {} "u1" "e1" 0 0 "r1").2 = ({} : CStore) :=
  reserve_failure_preserves_store {} "u1" "e1" 0 0 "r1" (by decide)

/-- C6 counterexample: a well-formed JSON object with no `action` key is
not a "typed failure distinct from BAD_ACTION" — `parsed.get("action")`
is `None`, `None` is hashable but not a registry key, and `operate`
answers `BAD_ACTION` (carrying `None`), the same code as for an unknown
action name.  This falsifies the claim that a reply missing the `action`
key yields a failure distinct from `BAD_ACTION`. -/
theorem operate_missing_action_is_bad_action :
    ((operate (LLMResult.res true "") (some (PyJson.jobj [])) [] toolsRaise).error.map
      OpsError.code) = some "BAD_ACTION" := rfl

/-- C6 (amended): `operate` validates the parsed reply as follows — an
unparseable reply yields `LLM_OR_TOOL_ERROR` (distinct from
`BAD_ACTION`); a parseable reply that is not an object also yields
`LLM_OR_TOOL_ERROR`; an object whose `action` value is unhashable (a
list or a dict) makes the registry membership test raise `TypeError`,
caught as `LLM_OR_TOOL_ERROR`; an object whose `action` value is
hashable but not a registry key — including a missing `action` key, read
as `None` — yields `BAD_ACTION` carrying that very value; a missing
`args` key is not a failure (it defaults to the empty dict). -/
theorem operate_action_validation :
    ∀ (c : String) (ctx : List (String × PyJson))
      (tools : String → List (String × PyJson) → ToolOutcome),
      ((operate (LLMResult.res true c) none ctx tools).error.map OpsError.code
          = some "LLM_OR_TOOL_ERROR") ∧
      (∀ j : PyJson, isObj j = false →
        (operate (LLMResult.res true c) (some j) ctx tools).error.map OpsError.code
          = some "LLM_OR_TOOL_ERROR") ∧
      (∀ fields : List (String × PyJson),
        actionUnhashable (pyLookup fields "action") = true →
        (operate (LLMResult.res true c) (some (PyJson.jobj fields)) ctx tools).error.map
            OpsError.code = some "LLM_OR_TOOL_ERROR") ∧
      (∀ fields : List (String × PyJson),
        actionUnhashable (pyLookup fields "action") = false →
        actionInRegistry (pyLookup fields "action") = false →
        (operate (LLMResult.res true c) (some (PyJson.jobj fields)) ctx tools).error.map
            OpsError.code = some "BAD_ACTION" ∧
        (operate (LLMResult.res true c) (some (PyJson.jobj fields)) ctx tools).error.map
            OpsError.message = some ((pyLookup fields "action").getD PyJson.jnull)) ∧
      ("BAD_ACTION" : String) ≠ "LLM_OR_TOOL_ERROR" := by
  intro c ctx tools
  refine ⟨rfl, ?_, ?_, ?_, by decide⟩
  · intro j hj
    cases j <;> first
      | rfl
      | simp [isObj] at hj
  · intro fields hu
    simp only [operate, hu, if_true]
    rfl
  · intro fields hu hf
    constructor <;>
      (simp only [operate, hu, hf, Bool.false_eq_true, if_false]; rfl)

/-- Witness for C6: a hashable action name outside the registry yields
`BAD_ACTION`, while a list-valued action yields `LLM_OR_TOOL_ERROR`
(the membership test raises `TypeError`). -/
theorem operate_action_validation_witness :
    (operate (LLMResult.res true "")
        (some (PyJson.jobj [("action", PyJson.jstr "fly_to_moon")])) [] toolsRaise).error.map
      OpsError.code = some "BAD_ACTION" ∧
    (operate (LLMResult.res true "")
        (some (PyJson.jobj [("action", PyJson.jarr [])])) [] toolsRaise).error.map
      OpsError.code = some "LLM_OR_TOOL_ERROR" :=
  ⟨(((operate_action_validation "" [] toolsRaise).2.2.2.1
      [("action", PyJson.jstr "fly_to_moon")] (by decide) (by decide)).1),
   ((operate_action_validation "" [] toolsRaise).2.2.1
      [("action", PyJson.jarr [])] (by decide))⟩

/-- C7 counterexample: with the conversation `[human "hello",
ai "reply"]` and no explicit input, `prepare` derives the input from the
last entry with extractable content regardless of role — the AI message
— not from the last human-role entry.  This falsifies the claim that the
derived input is the content of the last entry attributed to the human
role. -/
theorem prepare_input_takes_any_role :
    (_node_prepare { messages := msgsHumanThenAi }).input = some "reply" ∧
    (_node_prepare { messages := msgsHumanThenAi }).input ≠ some "hello" := by
  constructor <;> decide

/-- C7 (amended): when `input` is unset (or empty), `prepare` derives it
as the content of the last conversation entry with any extractable
content (human message, dict with a content key, object with a content
attribute, or bare string — `_extract_last_content`), defaulting to `""`
when the conversation is empty or has no such entry; and it applies the
defaults `account_id = "cultpass"`, `user_id = "a4ab87"`,
`min_confidence = 0.6`, `ticket_id = "unknown"`. -/
theorem prepare_derives_input_and_defaults :
    ∀ s : WState, (s.input = none ∨ s.input = some "") →
      (_node_prepare s).input = some ((_extract_last_content s.messages).getD "") ∧
      (_node_prepare s).account_id = some (s.account_id.getD "cultpass") ∧
      (_node_prepare s).user_id = some (s.user_id.getD "a4ab87") ∧
      (_node_prepare s).min_confidence = some (s.min_confidence.getD (Rat.divInt 3 5)) ∧
      (_node_prepare s).ticket_id = some (s.ticket_id.getD "unknown") := by
  intro s h
  simp only [_node_prepare, if_pos h]
  by_cases hm : s.messages = []
  · simp [hm, _extract_last_content, extractLoop]
  · simp [hm]

/-- Witness for C7: a conversation whose last entry is a bare string. -/
theorem prepare_derives_input_and_defaults_witness :
    (_node_prepare { messages := [Msg.plain "yo"] }).input = some "yo" :=
  ((prepare_derives_input_and_defaults { messages := [Msg.plain "yo"] }
    (Or.inl rfl)).1).trans (by decide)

/-- C8 counterexample: when `append_ticket_message` raises, `escalate`
aborts — the ticket-status update and the external notification are
never attempted and no aggregate is returned.  This falsifies the claim
that the append is best-effort: the source calls it with no exception
guard, and raising is its only failure mode. -/
theorem escalate_append_failure_aborts :
    (escalate escEnvAppendRaises "t1" "msg" none).1 = ExcOr.raised ∧
    "escalate_ticket" ∉ (escalate escEnvAppendRaises "t1" "msg" none).2 ∧
    "escalate_to_vocareum" ∉ (escalate escEnvAppendRaises "t1" "msg" none).2 := by
  refine ⟨rfl, ?_, ?_⟩ <;> decide

/-- C8 (amended): the reason-message append is not guarded — if it
raises, `escalate` propagates the exception and neither the
ticket-status update nor the external notification is attempted; when
the append completes and the ticket update returns (even a result-level
failure such as `NOT_FOUND`), the external notification is still
attempted and the aggregate surfaces both outcomes and the reason to the
caller. -/
theorem escalate_abort_and_independence :
    ∀ (env : EscEnv) (t m : String) (conf : Option ℚ),
      (env.appendOutcome = ExcOr.raised →
        (escalate env t m conf).1 = ExcOr.raised ∧
        "escalate_ticket" ∉ (escalate env t m conf).2 ∧
        "escalate_to_vocareum" ∉ (escalate env t m conf).2) ∧
      (∀ u : UdaResult, env.appendOutcome ≠ ExcOr.raised →
        env.ticketOutcome = ExcOr.value u →
        (escalate env t m conf).1 =
          ExcOr.value { udahub := u, vocareum := env.vocOutcome, reason := escReason env.llm } ∧
        "escalate_to_vocareum" ∈ (escalate env t m conf).2) := by
  intro env t m conf
  constructor
  · intro h
    refine ⟨?_, ?_, ?_⟩ <;> simp [escalate, h]
  · intro u ha ht
    cases hao : env.appendOutcome with
    | raised => exact absurd hao ha
    | value a =>
      constructor <;> simp [escalate, hao, ht]

/-- Witness for C8: with a completed append and a `NOT_FOUND` ticket
update, the external notification is still attempted and the aggregate
carries both outcomes. -/
theorem escalate_abort_and_independence_witness :
    (escalate escEnvTicketFails "t1" "m" none).1 =
      ExcOr.value { udahub := { ok := false, errCode := some "NOT_FOUND" },
                    vocareum := { ok := true }, reason := "Escalation required." } ∧
    "escalate_to_vocareum" ∈ (escalate escEnvTicketFails "t1" "m" none).2 :=
  (escalate_abort_and_independence escEnvTicketFails "t1" "m" none).2
    { ok := false, errCode := some "NOT_FOUND" } (by decide) (by decide)

/-- C4: routing after the resolve node.  In any run started without
pre-set results, if the stored resolver result is a failure the run
proceeds to the escalate node, and — provided the escalation
sub-operations return rather than raise (the node catches a raise and
then leaves the aggregate unset) — the final state carries a populated
escalation result alongside the failing resolver result; if the stored
resolver result is a success, the escalate node is never entered and the
escalation field stays empty. -/
theorem confidence_routing_after_resolve :
    ∀ (env : Env) (init : WState),
      init.resolver_result = none → init.escalation = none →
      ∀ r : ResolverResult, (run_workflow env init).1.resolver_result = some r →
        (r.ok = false →
          "escalate" ∈ (run_workflow env init).2 ∧
          (env.escEnv.appendOutcome ≠ ExcOr.raised → env.escEnv.ticketOutcome ≠ ExcOr.raised →
            (run_workflow env init).1.escalation.isSome = true)) ∧
        (r.ok = true →
          "escalate" ∉ (run_workflow env init).2 ∧
          (run_workflow env init).1.escalation = none) := by
  intro env init h1 h3 r
  have f1 : (_node_classify env.classifyLLM (_node_prepare init)).resolver_result = none := by
    rw [classify_keeps_resolver, prepare_keeps_resolver, h1]
  have f3 : (_node_classify env.classifyLLM (_node_prepare init)).escalation = none := by
    rw [classify_keeps_escalation, prepare_keeps_escalation, h3]
  simp only [run_workflow]
  intro hr
  split_ifs at hr ⊢ with hops hres hconf
  · rw [node_ops_keeps_resolver, f1] at hr
    cases hr
  · rw [node_escalate_keeps_resolver, node_resolve_sets_resolver] at hr
    injection hr with hR
    constructor
    · intro _
      refine ⟨by simp, ?_⟩
      intro ha ht
      exact node_escalate_populates env _ ha ht
    · intro hok
      have hend : route_by_confidence (_node_resolve env
          (_node_classify env.classifyLLM (_node_prepare init))) = "end" := by
        simp [route_by_confidence, node_resolve_sets_resolver, hR, hok]
      rw [hend] at hconf
      exact absurd hconf (by decide)
  · rw [node_resolve_sets_resolver] at hr
    injection hr with hR
    constructor
    · intro hok
      have hesc : route_by_confidence (_node_resolve env
          (_node_classify env.classifyLLM (_node_prepare init))) = "escalate" := by
        simp [route_by_confidence, node_resolve_sets_resolver, hR, hok]
      exact absurd hesc hconf
    · intro _
      refine ⟨by simp, ?_⟩
      rw [node_resolve_keeps_escalation, f3]
  · rw [node_escalate_keeps_resolver, f1] at hr
    cases hr

/-- Witness for C4: a run whose resolver fails on an empty knowledge
base proceeds to escalation and ends with a populated escalation
aggregate. -/
theorem confidence_routing_after_resolve_witness :
    "escalate" ∈ (run_workflow envResolveFail {}).2 ∧
    (run_workflow envResolveFail {}).1.escalation.isSome = true := by
  have h := confidence_routing_after_resolve envResolveFail {} rfl rfl resolveFailRes
    (by decide)
  have h2 := h.1 (by decide)
  exact ⟨h2.1, h2.2 (by decide) (by decide)⟩

/-- C5 counterexample: in a run whose input classifies as `unknown`,
the workflow goes straight from classify to escalate and terminates with
NEITHER `resolver_result` NOR `ops_result` populated — so "exactly one
of the two is populated per run" is false; only "at most one" holds. -/
theorem exactly_one_branch_result_fails :
    ¬ (((run_workflow envUnknown {}).1.resolver_result.isSome = true ∧
        (run_workflow envUnknown {}).1.ops_result.isSome = false) ∨
       ((run_workflow envUnknown {}).1.resolver_result.isSome = false ∧
        (run_workflow envUnknown {}).1.ops_result.isSome = true)) := by
  have h1 : (run_workflow envUnknown {}).1.resolver_result.isSome = false := rfl
  have h2 : (run_workflow envUnknown {}).1.ops_result.isSome = false := rfl
  simp [h1, h2]

/-- C5 (amended): in every run started without pre-set results, at most
one of `resolver_result` and `ops_result` is populated at the end (the
resolve and ops branches are mutually exclusive, but a direct escalation
populates neither), and the escalation field is populated only in runs
that executed the escalate node. -/
theorem branch_results_mutually_exclusive :
    ∀ (env : Env) (init : WState),
      init.resolver_result = none → init.ops_result = none → init.escalation = none →
      (¬((run_workflow env init).1.resolver_result.isSome = true ∧
         (run_workflow env init).1.ops_result.isSome = true)) ∧
      ((run_workflow env init).1.escalation.isSome = true →
        "escalate" ∈ (run_workflow env init).2) := by
  intro env init h1 h2 h3
  have f1 : (_node_classify env.classifyLLM (_node_prepare init)).resolver_result = none := by
    rw [classify_keeps_resolver, prepare_keeps_resolver, h1]
  have f2 : (_node_classify env.classifyLLM (_node_prepare init)).ops_result = none := by
    rw [classify_keeps_ops, prepare_keeps_ops, h2]
  have f3 : (_node_classify env.classifyLLM (_node_prepare init)).escalation = none := by
    rw [classify_keeps_escalation, prepare_keeps_escalation, h3]
  simp only [run_workflow]
  split_ifs with hops hres hconf
  · constructor
    · intro hc
      rw [node_ops_keeps_resolver, f1] at hc
      simp at hc
    · intro he
      rw [node_ops_keeps_escalation, f3] at he
      cases he
  · constructor
    · intro hc
      have hb := hc.2
      rw [node_escalate_keeps_ops, node_resolve_keeps_ops, f2] at hb
      cases hb
    · intro _
      simp
  · constructor
    · intro hc
      have hb := hc.2
      rw [node_resolve_keeps_ops, f2] at hb
      cases hb
    · intro he
      rw [node_resolve_keeps_escalation, f3] at he
      cases he
  · constructor
    · intro hc
      have ha := hc.1
      rw [node_escalate_keeps_resolver, f1] at ha
      cases ha
    · intro _
      simp

/-- Witness for C5: the amended invariant instantiated on the
`unknown`-intent run. -/
theorem branch_results_mutually_exclusive_witness :
    (¬((run_workflow envUnknown {}).1.resolver_result.isSome = true ∧
       (run_workflow envUnknown {}).1.ops_result.isSome = true)) ∧
    ((run_workflow envUnknown {}).1.escalation.isSome = true →
      "escalate" ∈ (run_workflow envUnknown {}).2) :=
  branch_results_mutually_exclusive envUnknown {} rfl rfl rfl

end Agentic
